import Mathlib

/-!
Verification of the multi-tier geocoding resolver of the Municipal-Permit-Scraper
repository.  The definitions below are a shallow embedding of
`scripts/san-diego-script/enhanced_geocoding_service.py` (the service class with its
four provider adapters, the shared rate limiter, the single-address fallback chain
`geocode_address` and the batch coordinator `batch_geocode_addresses`) and of the
distance/pricing arithmetic of `scripts/san-diego-script/csv_based_scraper.py`
(`add_geocoding`) and `scripts/san-diego-script/san_diego_county_scraper.py`
(`_calculate_distances_and_pricing`).

Network traffic is modelled by an oracle: each adapter receives the parsed outcome of
its HTTP call as an explicit argument, where `Except.error ()` stands for any raised
exception (network failure, non-success status, unparsable payload) and the `ok`
payload mirrors the JSON fields the Python code actually reads.  Wall-clock time is an
explicit rational argument; `time.sleep` is modelled by the slept duration that each
adapter returns as its third component, and the timestamp written back into the
service state is the time at which the sleep ends.  Machine floats are modelled by
exact rationals.  Each adapter additionally appears in the trace that
`geocode_address` returns, so that claims about which providers were invoked are
statable.
-/

namespace PermitGeocoding

/-- Truthiness of an optional Python string: `os.getenv` returns `None` when the
variable is unset, and an empty string is falsy, so both collapse to `none`. -/
def pythonTruthy : Option String → Option String
  | none => none
  | some s => if s = "" then none else some s

/-- Model of Python `str.strip()`: drop whitespace from both ends.  It is defined
by structural recursion over the character list of the string so that concrete
instances reduce. -/
def pyStrip (s : String) : String :=
  ⟨((s.data.dropWhile Char.isWhitespace).reverse.dropWhile Char.isWhitespace).reverse⟩

/-- Blank test used throughout the service: the Python sources test
`addr and addr.strip()` (or `not address or address.strip() == ""`), which is
equivalent to the stripped string being nonempty. -/
def nonBlank (a : String) : Bool := pyStrip a ≠ ""

/-- Mutable state of `EnhancedGeocodingService`: the `self.stats` counters and the
single shared `self.last_request_time` set in `__init__`. -/
structure ServiceState where
  geocodio_success : Nat
  google_success : Nat
  opencage_success : Nat
  nominatim_success : Nat
  total_requests : Nat
  failures : Nat
  last_request_time : ℚ
deriving DecidableEq, Repr

/-- State right after `__init__`: all counters zero, `last_request_time = 0`. -/
def initState : ServiceState :=
  { geocodio_success := 0, google_success := 0, opencage_success := 0
    nominatim_success := 0, total_requests := 0, failures := 0
    last_request_time := 0 }

/-- Value of `self.rate_limit_delay` (100 ms). -/
def rate_limit_delay : ℚ := 1/10

/-- Fixed sleep of the Nominatim adapter (`time.sleep(1.1)`). -/
def nominatim_sleep : ℚ := 11/10

/-- Duration slept by `_rate_limit` when entered at time `now` with the stored
timestamp `last`. -/
def pre_call_sleep (last now : ℚ) : ℚ :=
  if now - last < rate_limit_delay then rate_limit_delay - (now - last) else 0

/-- Timestamp stored by `_rate_limit` (the value of `time.time()` once the sleep,
if any, has finished). -/
def rate_limit_update (last now : ℚ) : ℚ := now + pre_call_sleep last now

/-- Common result record (`GeocodingResult` dataclass).  The opaque enrichment
payload `additional_data` is not read by any code this development covers and is
omitted. -/
structure GeocodingResult where
  latitude : ℚ
  longitude : ℚ
  accuracy : String
  confidence : ℚ
  formatted_address : String
  source : String
deriving DecidableEq, Repr

/-- Fields of one Geocodio result object that the adapter reads:
`location.lat`, `location.lng`, `accuracy_type`, `accuracy`, `formatted_address`
(absent optional keys are `none`). -/
structure GeocodioItem where
  lat : ℚ
  lng : ℚ
  accuracy_type : Option String
  accuracy : Option ℚ
  formatted_address : Option String
deriving DecidableEq, Repr

/-- Accuracy mapping of the Geocodio adapters (`accuracy_map.get(..., 'approximate')`;
the `place` key of the dictionary also maps to `approximate`). -/
def geocodioAccuracyMap (t : String) : String :=
  if t = "rooftop" then "rooftop"
  else if t = "range_interpolation" then "range_interpolation"
  else if t = "geometric_center" then "geometric_center"
  else "approximate"

/-- Construction of a `GeocodingResult` from a Geocodio item, shared verbatim by the
single and batch Geocodio adapters (only `source` differs). -/
def mkGeocodioResult (item : GeocodioItem) (address : String) (src : String) :
    GeocodingResult :=
  { latitude := item.lat
    longitude := item.lng
    accuracy := geocodioAccuracyMap (item.accuracy_type.getD "approximate")
    confidence := item.accuracy.getD 0
    formatted_address := item.formatted_address.getD address
    source := src }

/-- Embedding of `geocode_with_geocodio`.  The `resp` argument is the outcome of the
HTTP GET: an exception, or the (possibly empty) `results` array. -/
def geocode_with_geocodio (key : Option String)
    (resp : Except Unit (List GeocodioItem)) (address : String)
    (s : ServiceState) (now : ℚ) :
    Option GeocodingResult × ServiceState × ℚ :=
  match pythonTruthy key with
  | none => (none, s, 0)
  | some _ =>
    let slept := pre_call_sleep s.last_request_time now
    let s1 := { s with last_request_time := rate_limit_update s.last_request_time now }
    match resp with
    | .error _ => (none, s1, slept)
    | .ok [] => (none, s1, slept)
    | .ok (item :: _) =>
      (some (mkGeocodioResult item address "geocodio"),
       { s1 with geocodio_success := s1.geocodio_success + 1 }, slept)

/-- Fields of one Google result object that the adapter reads. -/
structure GoogleItem where
  lat : ℚ
  lng : ℚ
  location_type : Option String
  formatted_address : Option String
deriving DecidableEq, Repr

/-- Google response: the `status` sentinel and the `results` array. -/
structure GoogleResponse where
  status : String
  results : List GoogleItem
deriving DecidableEq, Repr

/-- Accuracy mapping of the Google adapter. -/
def googleAccuracyMap (t : String) : String :=
  if t = "ROOFTOP" then "rooftop"
  else if t = "RANGE_INTERPOLATED" then "range_interpolation"
  else if t = "GEOMETRIC_CENTER" then "geometric_center"
  else "approximate"

/-- Confidence derived by the Google adapter from the location type
(`0.9 if ROOFTOP else 0.7 if RANGE_INTERPOLATED else 0.5`). -/
def googleConfidence (t : String) : ℚ :=
  if t = "ROOFTOP" then 9/10 else if t = "RANGE_INTERPOLATED" then 7/10 else 1/2

/-- Construction of a `GeocodingResult` from a Google item. -/
def mkGoogleResult (item : GoogleItem) (address : String) : GeocodingResult :=
  { latitude := item.lat
    longitude := item.lng
    accuracy := googleAccuracyMap (item.location_type.getD "APPROXIMATE")
    confidence := googleConfidence (item.location_type.getD "APPROXIMATE")
    formatted_address := item.formatted_address.getD address
    source := "google" }

/-- Embedding of `geocode_with_google` (requires `status == 'OK'` and a nonempty
`results` array). -/
def geocode_with_google (key : Option String) (resp : Except Unit GoogleResponse)
    (address : String) (s : ServiceState) (now : ℚ) :
    Option GeocodingResult × ServiceState × ℚ :=
  match pythonTruthy key with
  | none => (none, s, 0)
  | some _ =>
    let slept := pre_call_sleep s.last_request_time now
    let s1 := { s with last_request_time := rate_limit_update s.last_request_time now }
    match resp with
    | .error _ => (none, s1, slept)
    | .ok r =>
      if r.status = "OK" then
        match r.results with
        | [] => (none, s1, slept)
        | item :: _ =>
          (some (mkGoogleResult item address),
           { s1 with google_success := s1.google_success + 1 }, slept)
      else (none, s1, slept)

/-- Fields of one OpenCage result object that the adapter reads. -/
structure OpenCageItem where
  lat : ℚ
  lng : ℚ
  confidence : Option ℚ
  formatted : Option String
deriving DecidableEq, Repr

/-- Construction of a `GeocodingResult` from an OpenCage item: the raw confidence
(native 0 to 10 scale, default 0) is divided by 10 and never clamped. -/
def mkOpenCageResult (item : OpenCageItem) (address : String) : GeocodingResult :=
  { latitude := item.lat
    longitude := item.lng
    accuracy := "approximate"
    confidence := item.confidence.getD 0 / 10
    formatted_address := item.formatted.getD address
    source := "opencage" }

/-- Embedding of `geocode_with_opencage`. -/
def geocode_with_opencage (key : Option String)
    (resp : Except Unit (List OpenCageItem)) (address : String)
    (s : ServiceState) (now : ℚ) :
    Option GeocodingResult × ServiceState × ℚ :=
  match pythonTruthy key with
  | none => (none, s, 0)
  | some _ =>
    let slept := pre_call_sleep s.last_request_time now
    let s1 := { s with last_request_time := rate_limit_update s.last_request_time now }
    match resp with
    | .error _ => (none, s1, slept)
    | .ok [] => (none, s1, slept)
    | .ok (item :: _) =>
      (some (mkOpenCageResult item address),
       { s1 with opencage_success := s1.opencage_success + 1 }, slept)

/-- Fields of one Nominatim result object that the adapter reads. -/
structure NominatimItem where
  lat : ℚ
  lon : ℚ
  importance : Option ℚ
  display_name : Option String
deriving DecidableEq, Repr

/-- Construction of a `GeocodingResult` from a Nominatim item: the raw importance
score (default 0.5) is used as confidence unchanged. -/
def mkNominatimResult (item : NominatimItem) (address : String) : GeocodingResult :=
  { latitude := item.lat
    longitude := item.lon
    accuracy := "approximate"
    confidence := item.importance.getD (1/2)
    formatted_address := item.display_name.getD address
    source := "nominatim" }

/-- Embedding of `geocode_with_nominatim`: no credential, an unconditional
`time.sleep(1.1)` before the request, and no use of the shared rate-limit
timestamp. -/
def geocode_with_nominatim (resp : Except Unit (List NominatimItem))
    (address : String) (s : ServiceState) :
    Option GeocodingResult × ServiceState × ℚ :=
  match resp with
  | .error _ => (none, s, nominatim_sleep)
  | .ok [] => (none, s, nominatim_sleep)
  | .ok (item :: _) =>
    (some (mkNominatimResult item address),
     { s with nominatim_success := s.nominatim_success + 1 }, nominatim_sleep)

/-- Environment variables read by `__init__` (`none` when unset). -/
structure Env where
  GEOCODIO_API_KEY : Option String
  GOOGLE_MAPS_API_KEY : Option String
  OPENCAGE_API_KEY : Option String

/-- API keys held by the service instance. -/
structure Keys where
  geocodio_api_key : Option String
  google_api_key : Option String
  opencage_api_key : Option String

/-- Hardcoded fallback credential that `__init__` substitutes for a missing
`GEOCODIO_API_KEY` environment variable. -/
def default_geocodio_key : String := "806d6c98688b022ff79c7dc6d08b662c897bfdb"

/-- Key assignment performed by `__init__`:
`self.geocodio_api_key = os.getenv('GEOCODIO_API_KEY') or '806d...fdb'`, while the
Google and OpenCage keys are taken from the environment with no fallback. -/
def serviceKeys (env : Env) : Keys :=
  { geocodio_api_key :=
      match pythonTruthy env.GEOCODIO_API_KEY with
      | some v => some v
      | none => some default_geocodio_key
    google_api_key := env.GOOGLE_MAPS_API_KEY
    opencage_api_key := env.OPENCAGE_API_KEY }

/-- Network oracle: the parsed outcome each provider would return for a given
query.  `geocodioBatch` models the batch POST; its `ok none` case is a response
whose top-level `results` key is missing or falsy, and each inner `none` is an
input entry whose nested result list is empty. -/
structure Oracle where
  geocodio : String → Except Unit (List GeocodioItem)
  google : String → Except Unit GoogleResponse
  opencage : String → Except Unit (List OpenCageItem)
  nominatim : String → Except Unit (List NominatimItem)
  geocodioBatch : List String → Except Unit (Option (List (Option GeocodioItem)))

/-- Identifier of the four single-address adapter methods, recorded in the call
trace of `geocode_address`. -/
inductive Provider where
  | geocodio
  | google
  | opencage
  | nominatim
deriving DecidableEq, Repr

/-- Acceptance test of the fallback chain:
`result and result.confidence >= min_confidence`. -/
def passes (r : Option GeocodingResult) (min_confidence : ℚ) : Bool :=
  match r with
  | some g => min_confidence ≤ g.confidence
  | none => false

/-- Embedding of `geocode_address`, the single-address fallback chain.  The third
component of the output lists the adapter methods that were called, in order.  The
`times` argument gives the wall-clock instant at which tier `i` fires. -/
def geocode_address (ks : Keys) (o : Oracle) (times : Nat → ℚ)
    (address : String) (min_confidence : ℚ) (s : ServiceState) :
    Option GeocodingResult × ServiceState × List Provider :=
  if pyStrip address = "" then (none, s, [])
  else
    let addr := pyStrip address
    let s0 := { s with total_requests := s.total_requests + 1 }
    let t1 := geocode_with_geocodio ks.geocodio_api_key (o.geocodio addr) addr s0 (times 0)
    if passes t1.1 min_confidence then (t1.1, t1.2.1, [Provider.geocodio])
    else
      let t2 := geocode_with_google ks.google_api_key (o.google addr) addr t1.2.1 (times 1)
      if passes t2.1 min_confidence then
        (t2.1, t2.2.1, [Provider.geocodio, Provider.google])
      else
        let t3 := geocode_with_opencage ks.opencage_api_key (o.opencage addr) addr
          t2.2.1 (times 2)
        if passes t3.1 min_confidence then
          (t3.1, t3.2.1, [Provider.geocodio, Provider.google, Provider.opencage])
        else
          let t4 := geocode_with_nominatim (o.nominatim addr) addr t3.2.1
          match t4.1 with
          | some g =>
            (some g, t4.2.1,
             [Provider.geocodio, Provider.google, Provider.opencage, Provider.nominatim])
          | none =>
            (none, { t4.2.1 with failures := t4.2.1.failures + 1 },
             [Provider.geocodio, Provider.google, Provider.opencage, Provider.nominatim])

/-- Loop body of `batch_geocode_with_geocodio` over `data['results']`: entry `i`
with a nonempty nested result list is turned into a `GeocodingResult` whose
formatted-address default is `addresses[i]` (that index is evaluated eagerly by the
Python `dict.get` call, so an out-of-range `i` raises; the `error` branch carries
the state at the moment of the raise, preserving the increments already made). -/
def batchLoop (addresses : List String) :
    List (Option GeocodioItem) → Nat → ServiceState →
    Except ServiceState (List (Option GeocodingResult) × ServiceState)
  | [], _, s => .ok ([], s)
  | none :: rest, i, s =>
    match batchLoop addresses rest (i + 1) s with
    | .error s2 => .error s2
    | .ok (l, s2) => .ok (none :: l, s2)
  | some item :: rest, i, s =>
    match addresses[i]? with
    | none => .error s
    | some orig =>
      match batchLoop addresses rest (i + 1)
          { s with geocodio_success := s.geocodio_success + 1 } with
      | .error s2 => .error s2
      | .ok (l, s2) => .ok (some (mkGeocodioResult item orig "geocodio_batch") :: l, s2)

/-- Embedding of `batch_geocode_with_geocodio`.  Any exception — of the POST itself
or of the result-processing loop — is caught and converted to one `None` per input
address; a successful loop result is padded with `None` up to the input length. -/
def batch_geocode_with_geocodio (key : Option String)
    (resp : Except Unit (Option (List (Option GeocodioItem))))
    (addresses : List String) (s : ServiceState) (now : ℚ) :
    List (Option GeocodingResult) × ServiceState × ℚ :=
  match pythonTruthy key, addresses with
  | none, _ => (List.replicate addresses.length none, s, 0)
  | some _, [] => (List.replicate addresses.length none, s, 0)
  | some _, _ :: _ =>
    let slept := pre_call_sleep s.last_request_time now
    let s1 := { s with last_request_time := rate_limit_update s.last_request_time now }
    match resp with
    | .error _ => (List.replicate addresses.length none, s1, slept)
    | .ok none => (List.replicate addresses.length none, s1, slept)
    | .ok (some items) =>
      match batchLoop addresses items 0 s1 with
      | .error s2 => (List.replicate addresses.length none, s2, slept)
      | .ok (l, s2) => (l ++ List.replicate (addresses.length - l.length) none, s2, slept)

/-- Per-address entry of the list returned by `batch_geocode_addresses` (the
result dictionary; the opaque `additional_data` passthrough is omitted). -/
structure BatchOutput where
  original_address : String
  geocoded : Bool
  latitude : Option ℚ
  longitude : Option ℚ
  accuracy : Option String
  confidence : Option ℚ
  formatted_address : Option String
  source : Option String
deriving DecidableEq, Repr

/-- Construction of one output dictionary from an optional geocoding result. -/
def outputOf (address : String) (g : Option GeocodingResult) : BatchOutput :=
  { original_address := address
    geocoded := g.isSome
    latitude := g.map (·.latitude)
    longitude := g.map (·.longitude)
    accuracy := g.map (·.accuracy)
    confidence := g.map (·.confidence)
    formatted_address := g.map (·.formatted_address)
    source := g.map (·.source) }

/-- Threshold application of the batch branch:
`if geocoding_result and geocoding_result.confidence < min_confidence: None`. -/
def applyThreshold (min_confidence : ℚ) (g : Option GeocodingResult) :
    Option GeocodingResult :=
  match g with
  | some r => if r.confidence < min_confidence then none else some r
  | none => none

/-- Value of `address_map[i]` built by the coordinator loop: the number of
non-blank entries strictly before position `i`. -/
def validIdx (addresses : List String) (i : Nat) : Nat :=
  ((addresses.take i).filter nonBlank).length

/-- Branch condition of `batch_geocode_addresses`:
`use_batch_api and self.geocodio_api_key and total > 0`. -/
def batchCond (ks : Keys) (use_batch_api : Bool) (addresses : List String) : Bool :=
  use_batch_api && (pythonTruthy ks.geocodio_api_key).isSome && decide (0 < addresses.length)

/-- Per-address fallback loop of `batch_geocode_addresses` (the `else` branch),
threading the service state and concatenating the call traces. -/
def runIndividual (ks : Keys) (o : Oracle) (times : Nat → ℚ) (min_confidence : ℚ) :
    List String → ServiceState → List BatchOutput × ServiceState × List Provider
  | [], s => ([], s, [])
  | a :: rest, s =>
    let r := geocode_address ks o times a min_confidence s
    let tail := runIndividual ks o times min_confidence rest r.2.1
    (outputOf a r.1 :: tail.1, tail.2.1, r.2.2 ++ tail.2.2)

/-- Embedding of `batch_geocode_addresses`.  In the batch branch the blanks are
filtered out (without trimming or deduplication), exactly one batch call is issued
over the filtered list, and position `i` of the output reads the batch result at
index `address_map[i]` with the confidence threshold applied; blank positions get a
null result.  Otherwise every position goes through `geocode_address`. -/
def batch_geocode_addresses (ks : Keys) (o : Oracle) (times : Nat → ℚ)
    (addresses : List String) (min_confidence : ℚ) (use_batch_api : Bool)
    (s : ServiceState) (now : ℚ) :
    List BatchOutput × ServiceState × List Provider :=
  if batchCond ks use_batch_api addresses then
    let valid_addresses := addresses.filter nonBlank
    let br := batch_geocode_with_geocodio ks.geocodio_api_key
      (o.geocodioBatch valid_addresses) valid_addresses s now
    (addresses.enum.map (fun p =>
      if nonBlank p.2 then
        outputOf p.2 (applyThreshold min_confidence (br.1.getD (validIdx addresses p.1) none))
      else outputOf p.2 none),
     br.2.1, [])
  else
    runIndividual ks o times min_confidence addresses s

/-- Python `int()` conversion: truncation toward zero on exact values. -/
def pyInt (q : ℚ) : ℤ := if 0 ≤ q then ⌊q⌋ else ⌈q⌉

/-- Python `round(x, 2)` modelled on exact rationals. -/
def round2 (q : ℚ) : ℚ := (round (q * 100) : ℚ) / 100

/-- Roundtrip-minutes formula of `add_geocoding` in `csv_based_scraper.py`:
`int((distance_miles / 35) * 60 * 2 + 10)`. -/
def csv_roundtrip_minutes (distance_miles : ℚ) : ℤ :=
  pyInt ((distance_miles / 35) * 60 * 2 + 10)

/-- Trucking price of `add_geocoding`: `roundtrip_minutes * 1.83`, with no
added-minutes term; this call site computes no total price. -/
def csv_trucking_price (distance_miles : ℚ) : ℚ :=
  (csv_roundtrip_minutes distance_miles : ℚ) * (183/100)

/-- Rounded trucking price stored by `add_geocoding`
(`permit['trucking_price_per_load'] = round(trucking_price, 2)`). -/
def csv_trucking_price_per_load (distance_miles : ℚ) : ℚ :=
  round2 (csv_trucking_price distance_miles)

/-- Roundtrip-minutes formula of `_calculate_distances_and_pricing` in
`san_diego_county_scraper.py` (same expression as the csv site). -/
def sd_roundtrip_minutes (distance_miles : ℚ) : ℤ :=
  pyInt ((distance_miles / 35) * 60 * 2 + 10)

/-- Hardcoded `added_minutes = 5` of `_calculate_distances_and_pricing`. -/
def sd_added_minutes : ℚ := 5

/-- Unrounded trucking price of `_calculate_distances_and_pricing`:
`(roundtrip_minutes * 1.83) + added_minutes` with the hardcoded 5-minute term. -/
def sd_trucking_price (distance_miles : ℚ) : ℚ :=
  (sd_roundtrip_minutes distance_miles : ℚ) * (183/100) + sd_added_minutes

/-- Rounded trucking price stored on the permit
(`permit.trucking_price_per_load = round(trucking_price, 2)`). -/
def sd_trucking_price_per_load (distance_miles : ℚ) : ℚ :=
  round2 (sd_trucking_price distance_miles)

/-- Total price stored on the permit:
`round(dump_fee + trucking_price + ldp_fee, 2)` — note that the unrounded
trucking price (which includes the hardcoded 5) enters the sum. -/
def sd_total_price_per_load (distance_miles dump_fee ldp_fee : ℚ) : ℚ :=
  round2 (dump_fee + sd_trucking_price distance_miles + ldp_fee)

/-- Result component of the Geocodio adapter, which depends only on the key, the
response and the address (the state only influences counters and timing). -/
def geocodioResult (key : Option String) (resp : Except Unit (List GeocodioItem))
    (address : String) : Option GeocodingResult :=
  (geocode_with_geocodio key resp address initState 0).1

/-- Result component of the Google adapter. -/
def googleResult (key : Option String) (resp : Except Unit GoogleResponse)
    (address : String) : Option GeocodingResult :=
  (geocode_with_google key resp address initState 0).1

/-- Result component of the OpenCage adapter. -/
def opencageResult (key : Option String) (resp : Except Unit (List OpenCageItem))
    (address : String) : Option GeocodingResult :=
  (geocode_with_opencage key resp address initState 0).1

/-- Result component of the Nominatim adapter. -/
def nominatimResult (resp : Except Unit (List NominatimItem))
    (address : String) : Option GeocodingResult :=
  (geocode_with_nominatim resp address initState).1

/-- Final state of the batch-processing loop, whether it finishes or raises. -/
def batchLoopFinal (addresses : List String) (items : List (Option GeocodioItem))
    (i : Nat) (s : ServiceState) : ServiceState :=
  match batchLoop addresses items i s with
  | .error s2 => s2
  | .ok (_, s2) => s2

/-- Componentwise monotonicity of the six statistics counters: no counter of the
second state is below its value in the first, i.e. no counter was reset on the
way from the first state to the second. -/
def counterMono (s s2 : ServiceState) : Prop :=
  s.geocodio_success ≤ s2.geocodio_success ∧
  s.google_success ≤ s2.google_success ∧
  s.opencage_success ≤ s2.opencage_success ∧
  s.nominatim_success ≤ s2.nominatim_success ∧
  s.total_requests ≤ s2.total_requests ∧
  s.failures ≤ s2.failures

/-- Concrete Geocodio item with confidence 0.9, used by witnesses and
counterexamples. -/
def itemHigh : GeocodioItem :=
  { lat := 1, lng := 2, accuracy_type := some "rooftop", accuracy := some (9/10)
    formatted_address := some "A fmt" }

/-- Concrete Geocodio item carrying a raw accuracy of 2 (outside [0,1]). -/
def gcItemRaw2 : GeocodioItem :=
  { lat := 0, lng := 0, accuracy_type := none, accuracy := some 2
    formatted_address := none }

/-- Concrete OpenCage item carrying a raw confidence of 20 (outside the native
0 to 10 range). -/
def ocItemRaw20 : OpenCageItem :=
  { lat := 0, lng := 0, confidence := some 20, formatted := none }

/-- Concrete OpenCage item carrying the native confidence 8. -/
def ocItemRaw8 : OpenCageItem :=
  { lat := 3, lng := 4, confidence := some 8, formatted := some "B fmt" }

/-- Concrete Nominatim item with importance 0.1, below any reasonable
threshold. -/
def nItemLow : NominatimItem :=
  { lat := 32, lon := -117, importance := some (1/10), display_name := some "D" }

/-- Service keys with every credential present. -/
def keysAll : Keys :=
  { geocodio_api_key := some "k", google_api_key := some "k"
    opencage_api_key := some "k" }

/-- Environment with no credential set. -/
def envNone : Env :=
  { GEOCODIO_API_KEY := none, GOOGLE_MAPS_API_KEY := none, OPENCAGE_API_KEY := none }

/-- Oracle whose batch endpoint raises, while the single Geocodio endpoint
returns a high-confidence result. -/
def oracleThrowBatch : Oracle :=
  { geocodio := fun _ => .ok [itemHigh]
    google := fun _ => .error ()
    opencage := fun _ => .error ()
    nominatim := fun _ => .error ()
    geocodioBatch := fun _ => .error () }

/-- Oracle whose batch endpoint answers a two-entry batch with one success and
one empty nested result list. -/
def oracleDupBatch : Oracle :=
  { geocodio := fun _ => .ok [itemHigh]
    google := fun _ => .error ()
    opencage := fun _ => .error ()
    nominatim := fun _ => .error ()
    geocodioBatch := fun _ => .ok (some [some itemHigh, none]) }

/-- Oracle where the three keyed providers all fail and only the free Nominatim
provider answers, with importance 0.1. -/
def oracleFreeOnly : Oracle :=
  { geocodio := fun _ => .error ()
    google := fun _ => .error ()
    opencage := fun _ => .error ()
    nominatim := fun _ => .ok [nItemLow]
    geocodioBatch := fun _ => .error () }

/-- Constant clock used by concrete runs. -/
def times0 : Nat → ℚ := fun _ => 0

/-! Helper lemmas: the result component of each adapter does not depend on the
service state or on the clock, and no adapter changes the global attempt and
failure counters. -/

theorem geocodio_fst (key : Option String) (resp : Except Unit (List GeocodioItem))
    (address : String) (s : ServiceState) (now : ℚ) :
    (geocode_with_geocodio key resp address s now).1 = geocodioResult key resp address := by
  unfold geocodioResult geocode_with_geocodio
  cases pythonTruthy key with
  | none => rfl
  | some k =>
    cases resp with
    | error e => rfl
    | ok items => cases items <;> rfl

theorem google_fst (key : Option String) (resp : Except Unit GoogleResponse)
    (address : String) (s : ServiceState) (now : ℚ) :
    (geocode_with_google key resp address s now).1 = googleResult key resp address := by
  unfold googleResult geocode_with_google
  cases pythonTruthy key with
  | none => rfl
  | some k =>
    cases resp with
    | error e => rfl
    | ok r =>
      by_cases hs : r.status = "OK"
      · simp only [if_pos hs]
        cases r.results <;> rfl
      · simp only [if_neg hs]

theorem opencage_fst (key : Option String) (resp : Except Unit (List OpenCageItem))
    (address : String) (s : ServiceState) (now : ℚ) :
    (geocode_with_opencage key resp address s now).1 = opencageResult key resp address := by
  unfold opencageResult geocode_with_opencage
  cases pythonTruthy key with
  | none => rfl
  | some k =>
    cases resp with
    | error e => rfl
    | ok items => cases items <;> rfl

theorem nominatim_fst (resp : Except Unit (List NominatimItem))
    (address : String) (s : ServiceState) :
    (geocode_with_nominatim resp address s).1 = nominatimResult resp address := by
  unfold nominatimResult geocode_with_nominatim
  cases resp with
  | error e => rfl
  | ok items => cases items <;> rfl

theorem geocodio_counters (key : Option String) (resp : Except Unit (List GeocodioItem))
    (address : String) (s : ServiceState) (now : ℚ) :
    (geocode_with_geocodio key resp address s now).2.1.total_requests = s.total_requests ∧
    (geocode_with_geocodio key resp address s now).2.1.failures = s.failures := by
  unfold geocode_with_geocodio
  cases pythonTruthy key with
  | none => exact ⟨rfl, rfl⟩
  | some k =>
    cases resp with
    | error e => exact ⟨rfl, rfl⟩
    | ok items => cases items <;> exact ⟨rfl, rfl⟩

theorem google_counters (key : Option String) (resp : Except Unit GoogleResponse)
    (address : String) (s : ServiceState) (now : ℚ) :
    (geocode_with_google key resp address s now).2.1.total_requests = s.total_requests ∧
    (geocode_with_google key resp address s now).2.1.failures = s.failures := by
  unfold geocode_with_google
  cases pythonTruthy key with
  | none => exact ⟨rfl, rfl⟩
  | some k =>
    cases resp with
    | error e => exact ⟨rfl, rfl⟩
    | ok r =>
      by_cases hs : r.status = "OK"
      · cases hr : r.results <;> simp [hs, hr]
      · simp [hs]

theorem opencage_counters (key : Option String) (resp : Except Unit (List OpenCageItem))
    (address : String) (s : ServiceState) (now : ℚ) :
    (geocode_with_opencage key resp address s now).2.1.total_requests = s.total_requests ∧
    (geocode_with_opencage key resp address s now).2.1.failures = s.failures := by
  unfold geocode_with_opencage
  cases pythonTruthy key with
  | none => exact ⟨rfl, rfl⟩
  | some k =>
    cases resp with
    | error e => exact ⟨rfl, rfl⟩
    | ok items => cases items <;> exact ⟨rfl, rfl⟩

theorem nominatim_counters (resp : Except Unit (List NominatimItem))
    (address : String) (s : ServiceState) :
    (geocode_with_nominatim resp address s).2.1.total_requests = s.total_requests ∧
    (geocode_with_nominatim resp address s).2.1.failures = s.failures := by
  unfold geocode_with_nominatim
  cases resp with
  | error e => exact ⟨rfl, rfl⟩
  | ok items => cases items <;> exact ⟨rfl, rfl⟩

theorem batchLoopFinal_counters (addresses : List String) :
    ∀ (items : List (Option GeocodioItem)) (i : Nat) (s : ServiceState),
      (batchLoopFinal addresses items i s).total_requests = s.total_requests ∧
      (batchLoopFinal addresses items i s).failures = s.failures := by
  intro items
  induction items with
  | nil => intro i s; exact ⟨rfl, rfl⟩
  | cons hd tl ih =>
    intro i s
    cases hd with
    | none =>
      have h := ih (i + 1) s
      unfold batchLoopFinal at h ⊢
      simp only [batchLoop]
      cases hb : batchLoop addresses tl (i + 1) s with
      | error s2 => simpa [hb] using h
      | ok p => rcases p with ⟨l, s2⟩; simpa [hb] using h
    | some item =>
      cases ho : addresses[i]? with
      | none =>
        unfold batchLoopFinal
        simp [batchLoop, ho]
      | some orig =>
        have h := ih (i + 1) { s with geocodio_success := s.geocodio_success + 1 }
        unfold batchLoopFinal at h ⊢
        simp only [batchLoop, ho]
        cases hb : batchLoop addresses tl (i + 1)
            { s with geocodio_success := s.geocodio_success + 1 } with
        | error s2 => simpa [hb] using h
        | ok p => rcases p with ⟨l, s2⟩; simpa [hb] using h

theorem batch_adapter_counters (key : Option String)
    (resp : Except Unit (Option (List (Option GeocodioItem))))
    (addresses : List String) (s : ServiceState) (now : ℚ) :
    (batch_geocode_with_geocodio key resp addresses s now).2.1.total_requests = s.total_requests ∧
    (batch_geocode_with_geocodio key resp addresses s now).2.1.failures = s.failures := by
  unfold batch_geocode_with_geocodio
  cases pythonTruthy key with
  | none => exact ⟨rfl, rfl⟩
  | some k =>
    cases addresses with
    | nil => exact ⟨rfl, rfl⟩
    | cons a rest =>
      cases resp with
      | error e => exact ⟨rfl, rfl⟩
      | ok data =>
        cases data with
        | none => exact ⟨rfl, rfl⟩
        | some items =>
          have h := batchLoopFinal_counters (a :: rest) items 0
            { s with last_request_time := rate_limit_update s.last_request_time now }
          unfold batchLoopFinal at h
          cases hb : batchLoop (a :: rest) items 0
              { s with last_request_time := rate_limit_update s.last_request_time now } with
          | error s2 => simpa [hb] using h
          | ok p => rcases p with ⟨l, s2⟩; simpa [hb] using h

theorem getD_replicate_none {α : Type} :
    ∀ (n i : Nat), (List.replicate n (none : Option α)).getD i none = none
  | 0, _ => rfl
  | _ + 1, 0 => rfl
  | n + 1, i + 1 => getD_replicate_none n i

/-- When the address at position `i` is non-blank, the index that the coordinator
reads in the batch results (the count of non-blank entries before `i`) is in
range for the filtered address list. -/
theorem validIdx_lt :
    ∀ (addresses : List String) (i : Nat), i < addresses.length →
      nonBlank (addresses.getD i "") = true →
      validIdx addresses i < (addresses.filter nonBlank).length := by
  intro addresses
  induction addresses with
  | nil => intro i hi; exact absurd hi (by simp)
  | cons a rest ih =>
    intro i hi hnb
    cases i with
    | zero =>
      have ha : nonBlank a = true := hnb
      simp [validIdx, List.filter_cons, ha]
    | succ j =>
      have hj : j < rest.length := by simpa using hi
      have hr := ih j hj (by simpa using hnb)
      by_cases ha : nonBlank a = true <;>
        simp [validIdx, List.filter_cons, ha] at hr ⊢ <;>
        simpa [validIdx] using hr

theorem map_original (l : List (Nat × String)) (g : Nat × String → BatchOutput)
    (hg : ∀ p, (g p).original_address = p.2) :
    (l.map g).map (·.original_address) = l.map Prod.snd := by
  induction l with
  | nil => rfl
  | cons p rest ih => simp [hg, ih]

theorem runIndividual_spec (ks : Keys) (o : Oracle) (times : Nat → ℚ) (mc : ℚ) :
    ∀ (addresses : List String) (s : ServiceState),
      (runIndividual ks o times mc addresses s).1.length = addresses.length ∧
      (runIndividual ks o times mc addresses s).1.map (·.original_address) = addresses := by
  intro addresses
  induction addresses with
  | nil => intro s; exact ⟨rfl, rfl⟩
  | cons a rest ih =>
    intro s
    have h := ih (geocode_address ks o times a mc s).2.1
    simp [runIndividual, outputOf, h.1, h.2]

/-- Claim C3 (confirmed): for every input list of addresses (possibly containing
duplicates and blanks), and in both the batch branch and the per-address branch,
the output of `batch_geocode_addresses` has exactly the same length as the input
and the entry at position `i` carries the input address at position `i` as its
`original_address` (order-preserving). -/
theorem C3_length_order (ks : Keys) (o : Oracle) (times : Nat → ℚ)
    (addresses : List String) (mc : ℚ) (use_batch_api : Bool) (s : ServiceState)
    (now : ℚ) :
    (batch_geocode_addresses ks o times addresses mc use_batch_api s now).1.length =
      addresses.length ∧
    (batch_geocode_addresses ks o times addresses mc use_batch_api s now).1.map
      (·.original_address) = addresses := by
  by_cases hb : batchCond ks use_batch_api addresses = true
  · simp only [batch_geocode_addresses, hb, if_true]
    constructor
    · simp
    · refine Eq.trans (map_original _ _ ?_) (List.enum_map_snd _)
      intro p
      by_cases hc : nonBlank p.2 = true <;> simp [outputOf, hc]
  · simp only [batch_geocode_addresses, hb, if_false, Bool.false_eq_true]
    exact runIndividual_spec ks o times mc addresses s

/-- Claim C4 (confirmed): the fallback chain short-circuits.  For every non-blank
address and every threshold, if the Geocodio tier produces a result that passes
the threshold, `geocode_address` returns it and only the Geocodio adapter was
called; if the Geocodio tier does not pass and the Google tier passes, its result
is returned and the OpenCage and Nominatim adapters are never called; likewise
for the OpenCage tier with respect to Nominatim. -/
theorem C4_short_circuit (ks : Keys) (o : Oracle) (times : Nat → ℚ)
    (address : String) (mc : ℚ) (s : ServiceState) (h : ¬ pyStrip address = "") :
    (passes (geocodioResult ks.geocodio_api_key (o.geocodio (pyStrip address))
        (pyStrip address)) mc = true →
      (geocode_address ks o times address mc s).1 =
        geocodioResult ks.geocodio_api_key (o.geocodio (pyStrip address))
          (pyStrip address) ∧
      (geocode_address ks o times address mc s).2.2 = [Provider.geocodio]) ∧
    (passes (geocodioResult ks.geocodio_api_key (o.geocodio (pyStrip address))
        (pyStrip address)) mc = false →
      passes (googleResult ks.google_api_key (o.google (pyStrip address))
        (pyStrip address)) mc = true →
      (geocode_address ks o times address mc s).1 =
        googleResult ks.google_api_key (o.google (pyStrip address)) (pyStrip address) ∧
      (geocode_address ks o times address mc s).2.2 =
        [Provider.geocodio, Provider.google]) ∧
    (passes (geocodioResult ks.geocodio_api_key (o.geocodio (pyStrip address))
        (pyStrip address)) mc = false →
      passes (googleResult ks.google_api_key (o.google (pyStrip address))
        (pyStrip address)) mc = false →
      passes (opencageResult ks.opencage_api_key (o.opencage (pyStrip address))
        (pyStrip address)) mc = true →
      (geocode_address ks o times address mc s).1 =
        opencageResult ks.opencage_api_key (o.opencage (pyStrip address))
          (pyStrip address) ∧
      (geocode_address ks o times address mc s).2.2 =
        [Provider.geocodio, Provider.google, Provider.opencage]) := by
  refine ⟨?_, ?_, ?_⟩
  · intro h1
    simp [geocode_address, h, geocodio_fst, h1]
  · intro h1 h2
    simp [geocode_address, h, geocodio_fst, google_fst, h1, h2]
  · intro h1 h2 h3
    simp [geocode_address, h, geocodio_fst, google_fst, opencage_fst, h1, h2, h3]

/-- Witness for C4: with every key present, a Geocodio stub answering with
confidence 0.9 and a threshold of 0.7, the resolver returns the Geocodio result
and the trace contains only the Geocodio adapter. -/
theorem C4_witness :
    (¬ pyStrip "A" = "") ∧
    ((geocode_address keysAll oracleThrowBatch times0 "A" (7/10) initState).1 =
      geocodioResult keysAll.geocodio_api_key (oracleThrowBatch.geocodio (pyStrip "A"))
        (pyStrip "A") ∧
    (geocode_address keysAll oracleThrowBatch times0 "A" (7/10) initState).2.2 =
      [Provider.geocodio]) := by
  have h : ¬ pyStrip "A" = "" := by decide
  refine ⟨h, (C4_short_circuit keysAll oracleThrowBatch times0 "A" (7/10) initState h).1 ?_⟩
  simp +decide [geocodioResult, geocode_with_geocodio, keysAll, oracleThrowBatch, pythonTruthy,
    itemHigh, mkGeocodioResult, passes]
  all_goals norm_num

/-- Claim C5 (confirmed): when the three keyed tiers all fail the threshold test,
`geocode_address` returns exactly what the Nominatim tier produced, with no
confidence check at all — a non-null Nominatim result is accepted as final for
every threshold value, even when its confidence is below the threshold. -/
theorem C5_free_override (ks : Keys) (o : Oracle) (times : Nat → ℚ)
    (address : String) (mc : ℚ) (s : ServiceState) (h : ¬ pyStrip address = "")
    (h1 : passes (geocodioResult ks.geocodio_api_key (o.geocodio (pyStrip address))
        (pyStrip address)) mc = false)
    (h2 : passes (googleResult ks.google_api_key (o.google (pyStrip address))
        (pyStrip address)) mc = false)
    (h3 : passes (opencageResult ks.opencage_api_key (o.opencage (pyStrip address))
        (pyStrip address)) mc = false) :
    (geocode_address ks o times address mc s).1 =
      nominatimResult (o.nominatim (pyStrip address)) (pyStrip address) ∧
    (geocode_address ks o times address mc s).2.2 =
      [Provider.geocodio, Provider.google, Provider.opencage, Provider.nominatim] := by
  cases hn : nominatimResult (o.nominatim (pyStrip address)) (pyStrip address) with
  | none =>
    simp [geocode_address, h, geocodio_fst, google_fst, opencage_fst, nominatim_fst,
      h1, h2, h3, hn]
  | some g =>
    simp [geocode_address, h, geocodio_fst, google_fst, opencage_fst, nominatim_fst,
      h1, h2, h3, hn]

/-- Witness for C5: with all three keyed providers failing and a Nominatim stub
returning importance 0.1 against a threshold of 0.7, the resolver still returns
the Nominatim result, whose confidence 0.1 is below the threshold. -/
theorem C5_witness :
    (¬ pyStrip "A" = "") ∧
    ((geocode_address keysAll oracleFreeOnly times0 "A" (7/10) initState).1 =
      nominatimResult (oracleFreeOnly.nominatim (pyStrip "A")) (pyStrip "A") ∧
    (geocode_address keysAll oracleFreeOnly times0 "A" (7/10) initState).2.2 =
      [Provider.geocodio, Provider.google, Provider.opencage, Provider.nominatim]) ∧
    (nominatimResult (oracleFreeOnly.nominatim (pyStrip "A")) (pyStrip "A")).map
      (·.confidence) = some (1/10) ∧
    ((1:ℚ)/10 < 7/10) := by
  have h : ¬ pyStrip "A" = "" := by decide
  refine ⟨h, C5_free_override keysAll oracleFreeOnly times0 "A" (7/10) initState h ?_ ?_ ?_,
    ?_, by norm_num⟩
  · rfl
  · rfl
  · rfl
  · norm_num [nominatimResult, geocode_with_nominatim, oracleFreeOnly, nItemLow,
      mkNominatimResult]

/-- Claim C1 (refuted): the batch coordinator does not deduplicate.  On the input
`["A", "A"]` the batch call receives the blank-filtered list verbatim — two
entries, although only one address is distinct — and with a batch response that
resolves the first entry and not the second, the two positions sharing the
address "A" receive different results (geocoded and not geocoded), contradicting
both the dedup count and the identical-result parts of the claim. -/
theorem C1_counterexample :
    ((["A", "A"] : List String).filter nonBlank = ["A", "A"]) ∧
    ((["A", "A"] : List String).filter nonBlank).dedup.length = 1 ∧
    ((batch_geocode_addresses keysAll oracleDupBatch times0 ["A", "A"] (7/10) true
        initState 0).1.map (·.geocoded) = [true, false]) := by
  refine ⟨by decide, by decide, ?_⟩
  simp +decide [batch_geocode_addresses, batchCond, keysAll, oracleDupBatch, pythonTruthy,
    batch_geocode_with_geocodio, batchLoop, nonBlank, pyStrip, validIdx, applyThreshold,
    itemHigh, mkGeocodioResult, outputOf, List.enum, List.enumFrom]
  all_goals norm_num

/-- Claim C1 as amended: in batch mode the coordinator only filters out blank
inputs — the single batch call receives the non-blank addresses verbatim
(untrimmed, duplicates preserved, order preserved) — and maps position `i` of the
output to the batch result at index `address_map[i]` (the number of non-blank
positions before `i`, always in range for the filtered list) with the confidence
threshold applied, while every blank input position maps to a null result. -/
theorem C1_amended (ks : Keys) (o : Oracle) (times : Nat → ℚ)
    (addresses : List String) (mc : ℚ) (s : ServiceState) (now : ℚ)
    (hb : batchCond ks true addresses = true) (i : Nat) (hi : i < addresses.length) :
    ((batch_geocode_addresses ks o times addresses mc true s now).1[i]? =
      some (if nonBlank (addresses.getD i "") = true then
        outputOf (addresses.getD i "")
          (applyThreshold mc
            ((batch_geocode_with_geocodio ks.geocodio_api_key
                (o.geocodioBatch (addresses.filter nonBlank)) (addresses.filter nonBlank)
                s now).1.getD (validIdx addresses i) none))
      else outputOf (addresses.getD i "") none)) ∧
    (nonBlank (addresses.getD i "") = true →
      validIdx addresses i < (addresses.filter nonBlank).length) := by
  constructor
  · simp only [batch_geocode_addresses, hb, if_true]
    rw [List.getElem?_map, List.getElem?_enum, List.getElem?_eq_getElem hi,
      List.getD_eq_getElem addresses "" hi]
    rfl
  · exact fun hnb => validIdx_lt addresses i hi hnb

/-- Witness for C1 as amended, at the input `["A", ""]` and position 0. -/
theorem C1_witness :
    (batchCond keysAll true ["A", ""] = true) ∧
    ((0:Nat) < (["A", ""] : List String).length) ∧
    (((batch_geocode_addresses keysAll oracleDupBatch times0 ["A", ""] (7/10) true
        initState 0).1[0]? =
      some (if nonBlank ((["A", ""] : List String).getD 0 "") = true then
        outputOf ((["A", ""] : List String).getD 0 "")
          (applyThreshold (7/10)
            ((batch_geocode_with_geocodio keysAll.geocodio_api_key
                (oracleDupBatch.geocodioBatch ((["A", ""] : List String).filter nonBlank))
                ((["A", ""] : List String).filter nonBlank) initState 0).1.getD
              (validIdx ["A", ""] 0) none))
      else outputOf ((["A", ""] : List String).getD 0 "") none)) ∧
    (nonBlank ((["A", ""] : List String).getD 0 "") = true →
      validIdx ["A", ""] 0 < ((["A", ""] : List String).filter nonBlank).length)) :=
  ⟨by decide, by decide,
    C1_amended keysAll oracleDupBatch times0 ["A", ""] (7/10) initState 0 (by decide) 0
      (by decide)⟩

theorem batch_adapter_error (key : Option String) (sent : List String)
    (s : ServiceState) (t : ℚ) :
    (batch_geocode_with_geocodio key (.error ()) sent s t).1 =
      List.replicate sent.length none := by
  unfold batch_geocode_with_geocodio
  cases pythonTruthy key with
  | none => rfl
  | some k =>
    cases sent with
    | nil => rfl
    | cons a rest => rfl

/-- Claim C2 (refuted): when the batch HTTP call raises, the run does not degrade
to per-address mode.  With a batch stub that throws and a single-address Geocodio
stub that would succeed with confidence 0.9, the run returns a null entry for the
address, no individual adapter is ever invoked (the trace is empty), although the
per-address resolver on the same input would have produced a result. -/
theorem C2_counterexample :
    ((batch_geocode_addresses keysAll oracleThrowBatch times0 ["A"] (7/10) true
        initState 0).1 = [outputOf "A" none]) ∧
    ((batch_geocode_addresses keysAll oracleThrowBatch times0 ["A"] (7/10) true
        initState 0).2.2 = []) ∧
    ((geocode_address keysAll oracleThrowBatch times0 "A" (7/10) initState).1.isSome =
      true) := by
  refine ⟨?_, ?_, ?_⟩
  · simp +decide [batch_geocode_addresses, batchCond, keysAll, oracleThrowBatch, pythonTruthy,
      batch_geocode_with_geocodio, nonBlank, pyStrip, validIdx, applyThreshold, outputOf]
  · simp +decide [batch_geocode_addresses, batchCond, keysAll, oracleThrowBatch, pythonTruthy]
  · simp +decide [geocode_address, keysAll, oracleThrowBatch, pythonTruthy, pyStrip,
      geocode_with_geocodio, itemHigh, mkGeocodioResult, passes]
    all_goals norm_num

/-- Claim C2 as amended: the batch adapter itself catches a throwing batch call
and returns one null per requested address; the coordinator keeps those nulls —
every output of such a run is not geocoded — and never invokes the individual
fallback chain in a batch-mode run (the trace of the run is empty), the mode
being fixed up front by the batch flag, the key and the input size; so batch and
per-address modes are indeed never mixed within one run, but by never degrading
rather than by degrading wholesale. -/
theorem C2_amended (ks : Keys) (o : Oracle) (times : Nat → ℚ)
    (addresses : List String) (mc : ℚ) (s : ServiceState) (now : ℚ)
    (hb : batchCond ks true addresses = true) :
    ((batch_geocode_addresses ks o times addresses mc true s now).2.2 = []) ∧
    (∀ (key : Option String) (sent : List String) (s2 : ServiceState) (t : ℚ),
      (batch_geocode_with_geocodio key (.error ()) sent s2 t).1 =
        List.replicate sent.length none) ∧
    (o.geocodioBatch (addresses.filter nonBlank) = .error () →
      ∀ out ∈ (batch_geocode_addresses ks o times addresses mc true s now).1,
        out.geocoded = false) := by
  refine ⟨?_, ?_, ?_⟩
  · simp only [batch_geocode_addresses, hb, if_true]
  · exact fun key sent s2 t => batch_adapter_error key sent s2 t
  · intro herr out hout
    simp only [batch_geocode_addresses, hb, if_true] at hout
    rcases List.mem_map.mp hout with ⟨p, hp, rfl⟩
    by_cases hc : nonBlank p.2 = true
    · simp [hc, herr, batch_adapter_error, getD_replicate_none, applyThreshold, outputOf]
    · simp [hc, outputOf]

/-- Witness for C2 as amended, with a throwing batch stub over the input
`["A"]`. -/
theorem C2_witness :
    (batchCond keysAll true ["A"] = true) ∧
    (oracleThrowBatch.geocodioBatch ((["A"] : List String).filter nonBlank) =
      .error ()) ∧
    (∀ out ∈ (batch_geocode_addresses keysAll oracleThrowBatch times0 ["A"] (7/10) true
        initState 0).1, out.geocoded = false) :=
  ⟨by decide, rfl,
    (C2_amended keysAll oracleThrowBatch times0 ["A"] (7/10) initState 0 (by decide)).2.2
      rfl⟩

/-- Claim C6 (refuted): confidence is not normalized into [0,1] regardless of the
raw value.  The OpenCage adapter divides the raw value by 10 without clamping, so
a response carrying a raw confidence of 20 produces a result whose confidence is
2, outside [0,1]; and the Geocodio adapter passes its raw accuracy value through
with no normalization at all, so a raw accuracy of 2 becomes a confidence of 2. -/
theorem C6_counterexample :
    (((geocode_with_opencage (some "k") (.ok [ocItemRaw20]) "A" initState 0).1.map
        (·.confidence)) = some 2 ∧ ¬ ((2:ℚ) ≤ 1)) ∧
    (((geocode_with_geocodio (some "k") (.ok [gcItemRaw2]) "A" initState 0).1.map
        (·.confidence)) = some 2) := by
  refine ⟨⟨?_, by norm_num⟩, ?_⟩
  · simp +decide [geocode_with_opencage, pythonTruthy, mkOpenCageResult, ocItemRaw20]
    all_goals norm_num
  · simp +decide [geocode_with_geocodio, pythonTruthy, mkGeocodioResult, gcItemRaw2]

/-- Claim C6 as amended: each adapter applies a fixed conversion with no clamping.
The OpenCage adapter divides the native 0-10 confidence by 10, so a native value
of 8 yields 0.8, and the result lies in [0,1] whenever the native value lies in
[0,10]; the Google adapter derives its confidence from the location type and that
value always lies in [0,1]; the Geocodio and Nominatim adapters pass the raw
value (accuracy, importance) through unchanged, so their confidence lies in [0,1]
only when the raw value does. -/
theorem C6_amended (k : String) (hk : ¬ k = "") (item : OpenCageItem) (raw : ℚ)
    (hraw : item.confidence = some raw) (h0 : 0 ≤ raw) (h10 : raw ≤ 10)
    (g : GoogleItem) (gi : GeocodioItem) (ni : NominatimItem) (a : String) :
    ((opencageResult (some k) (.ok [item]) a).map (·.confidence) = some (raw / 10) ∧
      0 ≤ raw / 10 ∧ raw / 10 ≤ 1) ∧
    (0 ≤ googleConfidence (g.location_type.getD "APPROXIMATE") ∧
      googleConfidence (g.location_type.getD "APPROXIMATE") ≤ 1) ∧
    ((geocodioResult (some k) (.ok [gi]) a).map (·.confidence) =
      some (gi.accuracy.getD 0)) ∧
    ((nominatimResult (.ok [ni]) a).map (·.confidence) =
      some (ni.importance.getD (1/2))) := by
  refine ⟨⟨?_, ?_, ?_⟩, ⟨?_, ?_⟩, ?_, ?_⟩
  · simp [opencageResult, geocode_with_opencage, pythonTruthy, hk, mkOpenCageResult, hraw]
  · exact div_nonneg h0 (by norm_num)
  · rw [div_le_one (by norm_num)]; linarith
  · unfold googleConfidence; split_ifs <;> norm_num
  · unfold googleConfidence; split_ifs <;> norm_num
  · simp [geocodioResult, geocode_with_geocodio, pythonTruthy, hk, mkGeocodioResult]
  · simp [nominatimResult, geocode_with_nominatim, mkNominatimResult]

/-- Witness for C6 as amended: a native OpenCage confidence of 8 yields 0.8,
inside [0,1]. -/
theorem C6_witness :
    (¬ ("k":String) = "") ∧ (ocItemRaw8.confidence = some 8) ∧
    ((0:ℚ) ≤ 8) ∧ ((8:ℚ) ≤ 10) ∧
    ((opencageResult (some "k") (.ok [ocItemRaw8]) "B").map (·.confidence) =
        some (8 / 10) ∧
      0 ≤ (8:ℚ) / 10 ∧ (8:ℚ) / 10 ≤ 1) :=
  ⟨by decide, rfl, by norm_num, by norm_num,
    (C6_amended "k" (by decide) ocItemRaw8 8 rfl (by norm_num) (by norm_num)
      { lat := 0, lng := 0, location_type := none, formatted_address := none }
      { lat := 0, lng := 0, accuracy_type := none, accuracy := none,
        formatted_address := none }
      { lat := 0, lon := 0, importance := none, display_name := none } "B").1⟩

/-- Claim C7 (refuted at its own numeric instance): the only call site that
computes a total price, `_calculate_distances_and_pricing`, hardcodes
`added_minutes = 5` instead of defaulting the added-minutes fee to 0, so for
`distance_miles = 17.3`, `dump_fee = 45` and `ldp_fee = 20` the stored total is
196.27, not the 191.27 demanded by the claim. -/
theorem C7_counterexample :
    sd_total_price_per_load (173/10) 45 20 = 19627/100 ∧
    ¬ sd_total_price_per_load (173/10) 45 20 = 19127/100 := by
  have h : sd_total_price_per_load (173/10) 45 20 = 19627/100 := by
    norm_num [sd_total_price_per_load, sd_trucking_price, sd_roundtrip_minutes,
      sd_added_minutes, pyInt, round2, round_eq]
  exact ⟨h, by rw [h]; norm_num⟩

/-- Claim C7 as amended: both call sites compute
`roundtrip_minutes = floor((distance_miles / 35) * 60 * 2 + 10)` (for the
non-negative distances at hand the Python `int()` truncation is the floor), and
for `distance_miles = 17.3` this gives 69; the csv site stores
`trucking_price = round(69 * 1.83, 2) = 126.27` with no added-minutes fee and no
total; the san-diego site adds a hardcoded 5-minute fee, storing
`round(69 * 1.83 + 5, 2) = 131.27`, and with `dump_fee = 45`, `ldp_fee = 20`
stores `total = round(45 + (69 * 1.83 + 5) + 20, 2) = 196.27`. -/
theorem C7_amended (d : ℚ) (hd : 0 ≤ d) :
    (csv_roundtrip_minutes d = ⌊(d / 35) * 60 * 2 + 10⌋ ∧
     sd_roundtrip_minutes d = ⌊(d / 35) * 60 * 2 + 10⌋) ∧
    csv_roundtrip_minutes (173/10) = 69 ∧
    csv_trucking_price_per_load (173/10) = 12627/100 ∧
    sd_trucking_price_per_load (173/10) = 13127/100 ∧
    sd_total_price_per_load (173/10) 45 20 = 19627/100 := by
  have h35 : (0:ℚ) ≤ d / 35 := div_nonneg hd (by norm_num)
  have hq : 0 ≤ (d / 35) * 60 * 2 + 10 := by nlinarith
  refine ⟨⟨?_, ?_⟩, ?_, ?_, ?_, ?_⟩
  · simp [csv_roundtrip_minutes, pyInt, hq]
  · simp [sd_roundtrip_minutes, pyInt, hq]
  · norm_num [csv_roundtrip_minutes, pyInt]
  · norm_num [csv_trucking_price_per_load, csv_trucking_price, csv_roundtrip_minutes,
      pyInt, round2, round_eq]
  · norm_num [sd_trucking_price_per_load, sd_trucking_price, sd_roundtrip_minutes,
      sd_added_minutes, pyInt, round2, round_eq]
  · norm_num [sd_total_price_per_load, sd_trucking_price, sd_roundtrip_minutes,
      sd_added_minutes, pyInt, round2, round_eq]

/-- Witness for C7 as amended, at distance 17.3 miles. -/
theorem C7_witness :
    ((0:ℚ) ≤ 173/10) ∧
    (csv_roundtrip_minutes (173/10) = ⌊(((173:ℚ)/10) / 35) * 60 * 2 + 10⌋ ∧
     sd_roundtrip_minutes (173/10) = ⌊(((173:ℚ)/10) / 35) * 60 * 2 + 10⌋) :=
  ⟨by norm_num, (C7_amended (173/10) (by norm_num)).1⟩

/-- Claim C8 (refuted): the adapters do not have independent rate-limit clocks.
There is a single shared `last_request_time`: starting from a fresh service, a
Google call at time 10.05 sleeps not at all; but if a Geocodio call happened at
time 10, the same Google call at 10.05 sleeps 0.05 s — the delay before one
adapter call depends on another adapter's previous call, although no previous
Google call exists in either run. -/
theorem C8_counterexample :
    ((geocode_with_google (some "k") (.error ()) "A"
        ((geocode_with_geocodio (some "k") (.ok [itemHigh]) "A" initState 10).2.1)
        (201/20)).2.2 = 1/20) ∧
    ((geocode_with_google (some "k") (.error ()) "A" initState (201/20)).2.2 = 0) ∧
    ¬ ((1:ℚ)/20 = 0) := by
  refine ⟨?_, ?_, by norm_num⟩
  · simp +decide [geocode_with_google, geocode_with_geocodio, pythonTruthy, itemHigh,
      initState, rate_limit_update, pre_call_sleep, rate_limit_delay, mkGeocodioResult]
    all_goals norm_num
  · simp +decide [geocode_with_google, pythonTruthy, initState, pre_call_sleep,
      rate_limit_delay]
    all_goals norm_num

/-- Claim C8 as amended: the Geocodio, Google and OpenCage adapters share one
rate-limit clock.  Each of the three, when its key is truthy, sleeps
`max(0, 0.1 - (now - last_request_time))` and writes the shared timestamp back
(the same formula for all three, reading whatever adapter wrote it last); with a
falsy key the adapter leaves the state untouched and sleeps 0.  The Nominatim
adapter sleeps a fixed 1.1 s on every call and never reads or writes the shared
timestamp. -/
theorem C8_amended (key : Option String) (rg : Except Unit (List GeocodioItem))
    (rgo : Except Unit GoogleResponse) (ro : Except Unit (List OpenCageItem))
    (rn : Except Unit (List NominatimItem)) (a : String) (s : ServiceState) (now : ℚ) :
    ((geocode_with_geocodio key rg a s now).2.1.last_request_time =
      (pythonTruthy key).elim s.last_request_time
        (fun _ => rate_limit_update s.last_request_time now)) ∧
    ((geocode_with_google key rgo a s now).2.1.last_request_time =
      (pythonTruthy key).elim s.last_request_time
        (fun _ => rate_limit_update s.last_request_time now)) ∧
    ((geocode_with_opencage key ro a s now).2.1.last_request_time =
      (pythonTruthy key).elim s.last_request_time
        (fun _ => rate_limit_update s.last_request_time now)) ∧
    ((geocode_with_geocodio key rg a s now).2.2 =
      (pythonTruthy key).elim 0 (fun _ => pre_call_sleep s.last_request_time now)) ∧
    ((geocode_with_google key rgo a s now).2.2 =
      (pythonTruthy key).elim 0 (fun _ => pre_call_sleep s.last_request_time now)) ∧
    ((geocode_with_opencage key ro a s now).2.2 =
      (pythonTruthy key).elim 0 (fun _ => pre_call_sleep s.last_request_time now)) ∧
    ((geocode_with_nominatim rn a s).2.1.last_request_time = s.last_request_time) ∧
    ((geocode_with_nominatim rn a s).2.2 = nominatim_sleep) := by
  refine ⟨?_, ?_, ?_, ?_, ?_, ?_, ?_, ?_⟩
  · unfold geocode_with_geocodio
    cases pythonTruthy key with
    | none => rfl
    | some k =>
      cases rg with
      | error e => rfl
      | ok items => cases items <;> rfl
  · unfold geocode_with_google
    cases pythonTruthy key with
    | none => rfl
    | some k =>
      cases rgo with
      | error e => rfl
      | ok r =>
        by_cases hs : r.status = "OK"
        · cases hr : r.results <;> simp [hs, hr]
        · simp [hs]
  · unfold geocode_with_opencage
    cases pythonTruthy key with
    | none => rfl
    | some k =>
      cases ro with
      | error e => rfl
      | ok items => cases items <;> rfl
  · unfold geocode_with_geocodio
    cases pythonTruthy key with
    | none => rfl
    | some k =>
      cases rg with
      | error e => rfl
      | ok items => cases items <;> rfl
  · unfold geocode_with_google
    cases pythonTruthy key with
    | none => rfl
    | some k =>
      cases rgo with
      | error e => rfl
      | ok r =>
        by_cases hs : r.status = "OK"
        · cases hr : r.results <;> simp [hs, hr]
        · simp [hs]
  · unfold geocode_with_opencage
    cases pythonTruthy key with
    | none => rfl
    | some k =>
      cases ro with
      | error e => rfl
      | ok items => cases items <;> rfl
  · unfold geocode_with_nominatim
    cases rn with
    | error e => rfl
    | ok items => cases items <;> rfl
  · unfold geocode_with_nominatim
    cases rn with
    | error e => rfl
    | ok items => cases items <;> rfl

theorem passes_true_ne_none (r : Option GeocodingResult) (mc : ℚ)
    (h : passes r mc = true) : ¬ r = none := by
  cases r with
  | none => simp [passes] at h
  | some g => simp

theorem counterMono_refl (s : ServiceState) : counterMono s s := by
  simp [counterMono]

theorem counterMono_trans {s1 s2 s3 : ServiceState} (h1 : counterMono s1 s2)
    (h2 : counterMono s2 s3) : counterMono s1 s3 := by
  obtain ⟨a1, b1, c1, d1, e1, f1⟩ := h1
  obtain ⟨a2, b2, c2, d2, e2, f2⟩ := h2
  exact ⟨le_trans a1 a2, le_trans b1 b2, le_trans c1 c2, le_trans d1 d2,
    le_trans e1 e2, le_trans f1 f2⟩

theorem geocodio_success_eq (key : Option String) (resp : Except Unit (List GeocodioItem))
    (address : String) (s : ServiceState) (now : ℚ) :
    (geocode_with_geocodio key resp address s now).2.1.geocodio_success =
      s.geocodio_success +
        (if (geocode_with_geocodio key resp address s now).1.isSome then 1 else 0) := by
  unfold geocode_with_geocodio
  cases pythonTruthy key with
  | none => simp
  | some k =>
    cases resp with
    | error e => simp
    | ok items => cases items <;> simp

theorem google_success_eq (key : Option String) (resp : Except Unit GoogleResponse)
    (address : String) (s : ServiceState) (now : ℚ) :
    (geocode_with_google key resp address s now).2.1.google_success =
      s.google_success +
        (if (geocode_with_google key resp address s now).1.isSome then 1 else 0) := by
  unfold geocode_with_google
  cases pythonTruthy key with
  | none => simp
  | some k =>
    cases resp with
    | error e => simp
    | ok r =>
      by_cases hs : r.status = "OK"
      · cases hr : r.results <;> simp [hs, hr]
      · simp [hs]

theorem opencage_success_eq (key : Option String) (resp : Except Unit (List OpenCageItem))
    (address : String) (s : ServiceState) (now : ℚ) :
    (geocode_with_opencage key resp address s now).2.1.opencage_success =
      s.opencage_success +
        (if (geocode_with_opencage key resp address s now).1.isSome then 1 else 0) := by
  unfold geocode_with_opencage
  cases pythonTruthy key with
  | none => simp
  | some k =>
    cases resp with
    | error e => simp
    | ok items => cases items <;> simp

theorem nominatim_success_eq (resp : Except Unit (List NominatimItem))
    (address : String) (s : ServiceState) :
    (geocode_with_nominatim resp address s).2.1.nominatim_success =
      s.nominatim_success +
        (if (geocode_with_nominatim resp address s).1.isSome then 1 else 0) := by
  unfold geocode_with_nominatim
  cases resp with
  | error e => simp
  | ok items => cases items <;> simp

theorem batchLoopFinal_other (addresses : List String) :
    ∀ (items : List (Option GeocodioItem)) (i : Nat) (s : ServiceState),
      (batchLoopFinal addresses items i s).google_success = s.google_success ∧
      (batchLoopFinal addresses items i s).opencage_success = s.opencage_success ∧
      (batchLoopFinal addresses items i s).nominatim_success = s.nominatim_success := by
  intro items
  induction items with
  | nil => intro i s; exact ⟨rfl, rfl, rfl⟩
  | cons hd tl ih =>
    intro i s
    cases hd with
    | none =>
      have h := ih (i + 1) s
      unfold batchLoopFinal at h ⊢
      simp only [batchLoop]
      cases hb : batchLoop addresses tl (i + 1) s with
      | error s2 => simpa [hb] using h
      | ok p => rcases p with ⟨l, s2⟩; simpa [hb] using h
    | some item =>
      cases ho : addresses[i]? with
      | none =>
        unfold batchLoopFinal
        simp [batchLoop, ho]
      | some orig =>
        have h := ih (i + 1) { s with geocodio_success := s.geocodio_success + 1 }
        unfold batchLoopFinal at h ⊢
        simp only [batchLoop, ho]
        cases hb : batchLoop addresses tl (i + 1)
            { s with geocodio_success := s.geocodio_success + 1 } with
        | error s2 => simpa [hb] using h
        | ok p => rcases p with ⟨l, s2⟩; simpa [hb] using h

theorem batch_adapter_other (key : Option String)
    (resp : Except Unit (Option (List (Option GeocodioItem))))
    (addresses : List String) (s : ServiceState) (now : ℚ) :
    (batch_geocode_with_geocodio key resp addresses s now).2.1.google_success =
      s.google_success ∧
    (batch_geocode_with_geocodio key resp addresses s now).2.1.opencage_success =
      s.opencage_success ∧
    (batch_geocode_with_geocodio key resp addresses s now).2.1.nominatim_success =
      s.nominatim_success := by
  unfold batch_geocode_with_geocodio
  cases pythonTruthy key with
  | none => exact ⟨rfl, rfl, rfl⟩
  | some k =>
    cases addresses with
    | nil => exact ⟨rfl, rfl, rfl⟩
    | cons a rest =>
      cases resp with
      | error e => exact ⟨rfl, rfl, rfl⟩
      | ok data =>
        cases data with
        | none => exact ⟨rfl, rfl, rfl⟩
        | some items =>
          have h := batchLoopFinal_other (a :: rest) items 0
            { s with last_request_time := rate_limit_update s.last_request_time now }
          unfold batchLoopFinal at h
          cases hb : batchLoop (a :: rest) items 0
              { s with last_request_time := rate_limit_update s.last_request_time now } with
          | error s2 => simpa [hb] using h
          | ok p => rcases p with ⟨l, s2⟩; simpa [hb] using h

theorem geocodio_mono (key : Option String) (resp : Except Unit (List GeocodioItem))
    (address : String) (s : ServiceState) (now : ℚ) :
    counterMono s (geocode_with_geocodio key resp address s now).2.1 := by
  unfold geocode_with_geocodio
  cases pythonTruthy key with
  | none => exact counterMono_refl s
  | some k =>
    cases resp with
    | error e => simp [counterMono]
    | ok items => cases items <;> simp [counterMono]

theorem google_mono (key : Option String) (resp : Except Unit GoogleResponse)
    (address : String) (s : ServiceState) (now : ℚ) :
    counterMono s (geocode_with_google key resp address s now).2.1 := by
  unfold geocode_with_google
  cases pythonTruthy key with
  | none => exact counterMono_refl s
  | some k =>
    cases resp with
    | error e => simp [counterMono]
    | ok r =>
      by_cases hs : r.status = "OK"
      · cases hr : r.results <;> simp [counterMono, hs, hr]
      · simp [counterMono, hs]

theorem opencage_mono (key : Option String) (resp : Except Unit (List OpenCageItem))
    (address : String) (s : ServiceState) (now : ℚ) :
    counterMono s (geocode_with_opencage key resp address s now).2.1 := by
  unfold geocode_with_opencage
  cases pythonTruthy key with
  | none => exact counterMono_refl s
  | some k =>
    cases resp with
    | error e => simp [counterMono]
    | ok items => cases items <;> simp [counterMono]

theorem nominatim_mono (resp : Except Unit (List NominatimItem))
    (address : String) (s : ServiceState) :
    counterMono s (geocode_with_nominatim resp address s).2.1 := by
  unfold geocode_with_nominatim
  cases resp with
  | error e => exact counterMono_refl s
  | ok items => cases items <;> simp [counterMono]

theorem batchLoopFinal_mono (addresses : List String) :
    ∀ (items : List (Option GeocodioItem)) (i : Nat) (s : ServiceState),
      counterMono s (batchLoopFinal addresses items i s) := by
  intro items
  induction items with
  | nil => intro i s; exact counterMono_refl s
  | cons hd tl ih =>
    intro i s
    cases hd with
    | none =>
      have h := ih (i + 1) s
      unfold batchLoopFinal at h ⊢
      simp only [batchLoop]
      cases hb : batchLoop addresses tl (i + 1) s with
      | error s2 => simpa [hb] using h
      | ok p => rcases p with ⟨l, s2⟩; simpa [hb] using h
    | some item =>
      cases ho : addresses[i]? with
      | none =>
        unfold batchLoopFinal
        simp only [batchLoop, ho]
        exact counterMono_refl s
      | some orig =>
        have hstep : counterMono s { s with geocodio_success := s.geocodio_success + 1 } := by
          simp [counterMono]
        have h := ih (i + 1) { s with geocodio_success := s.geocodio_success + 1 }
        unfold batchLoopFinal at h ⊢
        simp only [batchLoop, ho]
        cases hb : batchLoop addresses tl (i + 1)
            { s with geocodio_success := s.geocodio_success + 1 } with
        | error s2 => exact counterMono_trans hstep (by simpa [hb] using h)
        | ok p =>
          rcases p with ⟨l, s2⟩
          exact counterMono_trans hstep (by simpa [hb] using h)

theorem batch_adapter_mono (key : Option String)
    (resp : Except Unit (Option (List (Option GeocodioItem))))
    (addresses : List String) (s : ServiceState) (now : ℚ) :
    counterMono s (batch_geocode_with_geocodio key resp addresses s now).2.1 := by
  unfold batch_geocode_with_geocodio
  cases pythonTruthy key with
  | none => exact counterMono_refl s
  | some k =>
    cases addresses with
    | nil => exact counterMono_refl s
    | cons a rest =>
      have hstep : counterMono s
          { s with last_request_time := rate_limit_update s.last_request_time now } := by
        simp [counterMono]
      cases resp with
      | error e => exact hstep
      | ok data =>
        cases data with
        | none => exact hstep
        | some items =>
          have h := batchLoopFinal_mono (a :: rest) items 0
            { s with last_request_time := rate_limit_update s.last_request_time now }
          unfold batchLoopFinal at h
          cases hb : batchLoop (a :: rest) items 0
              { s with last_request_time := rate_limit_update s.last_request_time now } with
          | error s2 => exact counterMono_trans hstep (by simpa [hb] using h)
          | ok p =>
            rcases p with ⟨l, s2⟩
            exact counterMono_trans hstep (by simpa [hb] using h)

theorem geocode_address_mono (ks : Keys) (o : Oracle) (times : Nat → ℚ)
    (a : String) (mc : ℚ) (s : ServiceState) :
    counterMono s (geocode_address ks o times a mc s).2.1 := by
  by_cases hb : pyStrip a = ""
  · simpa [geocode_address, hb] using counterMono_refl s
  · simp only [geocode_address, if_neg hb, geocodio_fst, google_fst, opencage_fst,
      nominatim_fst]
    have h0 : counterMono s { s with total_requests := s.total_requests + 1 } := by
      simp [counterMono]
    by_cases c1 : passes (geocodioResult ks.geocodio_api_key (o.geocodio (pyStrip a))
        (pyStrip a)) mc = true
    · simp only [c1, if_true]
      exact counterMono_trans h0 (geocodio_mono _ _ _ _ _)
    · simp only [c1, if_false, Bool.false_eq_true]
      by_cases c2 : passes (googleResult ks.google_api_key (o.google (pyStrip a))
          (pyStrip a)) mc = true
      · simp only [c2, if_true]
        exact counterMono_trans h0 (counterMono_trans (geocodio_mono _ _ _ _ _)
          (google_mono _ _ _ _ _))
      · simp only [c2, if_false, Bool.false_eq_true]
        by_cases c3 : passes (opencageResult ks.opencage_api_key (o.opencage (pyStrip a))
            (pyStrip a)) mc = true
        · simp only [c3, if_true]
          exact counterMono_trans h0 (counterMono_trans (geocodio_mono _ _ _ _ _)
            (counterMono_trans (google_mono _ _ _ _ _) (opencage_mono _ _ _ _ _)))
        · simp only [c3, if_false, Bool.false_eq_true]
          cases hn : nominatimResult (o.nominatim (pyStrip a)) (pyStrip a) with
          | some g =>
            simp only [hn]
            exact counterMono_trans h0 (counterMono_trans (geocodio_mono _ _ _ _ _)
              (counterMono_trans (google_mono _ _ _ _ _)
                (counterMono_trans (opencage_mono _ _ _ _ _) (nominatim_mono _ _ _))))
          | none =>
            simp only [hn]
            have hchain : counterMono s
                (geocode_with_nominatim (o.nominatim (pyStrip a)) (pyStrip a)
                  (geocode_with_opencage ks.opencage_api_key (o.opencage (pyStrip a))
                    (pyStrip a)
                    (geocode_with_google ks.google_api_key (o.google (pyStrip a))
                      (pyStrip a)
                      (geocode_with_geocodio ks.geocodio_api_key (o.geocodio (pyStrip a))
                        (pyStrip a) { s with total_requests := s.total_requests + 1 }
                        (times 0)).2.1
                      (times 1)).2.1
                    (times 2)).2.1).2.1 :=
              counterMono_trans h0 (counterMono_trans (geocodio_mono _ _ _ _ _)
                (counterMono_trans (google_mono _ _ _ _ _)
                  (counterMono_trans (opencage_mono _ _ _ _ _) (nominatim_mono _ _ _))))
            exact counterMono_trans hchain (by simp [counterMono])

theorem runIndividual_mono (ks : Keys) (o : Oracle) (times : Nat → ℚ) (mc : ℚ) :
    ∀ (addresses : List String) (s : ServiceState),
      counterMono s (runIndividual ks o times mc addresses s).2.1 := by
  intro addresses
  induction addresses with
  | nil => intro s; exact counterMono_refl s
  | cons a rest ih =>
    intro s
    simp only [runIndividual]
    exact counterMono_trans (geocode_address_mono ks o times a mc s) (ih _)

/-- Claim C9 (refuted): the global counters are not maintained in batch mode.  A
batch-mode run over the single non-blank address "A" leaves the total-attempts
counter at 0, although the claim requires one increment per non-blank address in
both modes. -/
theorem C9_counterexample :
    (nonBlank "A" = true) ∧
    ((batch_geocode_addresses keysAll oracleDupBatch times0 ["A"] (7/10) true
        initState 0).2.1.total_requests = 0) := by
  refine ⟨by decide, ?_⟩
  simp only [batch_geocode_addresses]
  rw [if_pos (by decide : batchCond keysAll true ["A"] = true)]
  rw [(batch_adapter_counters _ _ _ _ _).1]
  rfl

/-- Claim C9 as amended: the global attempt and failure bookkeeping lives only in
the per-address path.  A blank address leaves the state untouched entirely; for a
non-blank address `geocode_address` increments the total-attempts counter exactly
once and increments the hard-failure counter exactly when no tier produced an
accepted result.  Each adapter increments its own success counter exactly when it
produces a result.  A batch-mode run, by contrast, updates neither the
total-attempts counter nor the failure counter nor any other provider success
counter — of the statistics only the Geocodio success counter can change.  And no
counter is ever implicitly reset: in both modes every counter of the final state
is at least its initial value. -/
theorem C9_amended (ks : Keys) (o : Oracle) (times : Nat → ℚ) (a : String)
    (addresses : List String) (mc : ℚ) (use_batch : Bool) (s : ServiceState)
    (now : ℚ) :
    (pyStrip a = "" → geocode_address ks o times a mc s = (none, s, [])) ∧
    (¬ pyStrip a = "" →
      (geocode_address ks o times a mc s).2.1.total_requests = s.total_requests + 1) ∧
    (¬ pyStrip a = "" →
      (geocode_address ks o times a mc s).2.1.failures =
        s.failures + (if (geocode_address ks o times a mc s).1 = none then 1 else 0)) ∧
    (∀ (key : Option String) (resp : Except Unit (List GeocodioItem)) (addr : String)
        (s2 : ServiceState) (t : ℚ),
      (geocode_with_geocodio key resp addr s2 t).2.1.geocodio_success =
        s2.geocodio_success +
          (if (geocode_with_geocodio key resp addr s2 t).1.isSome then 1 else 0)) ∧
    (∀ (key : Option String) (resp : Except Unit GoogleResponse) (addr : String)
        (s2 : ServiceState) (t : ℚ),
      (geocode_with_google key resp addr s2 t).2.1.google_success =
        s2.google_success +
          (if (geocode_with_google key resp addr s2 t).1.isSome then 1 else 0)) ∧
    (∀ (key : Option String) (resp : Except Unit (List OpenCageItem)) (addr : String)
        (s2 : ServiceState) (t : ℚ),
      (geocode_with_opencage key resp addr s2 t).2.1.opencage_success =
        s2.opencage_success +
          (if (geocode_with_opencage key resp addr s2 t).1.isSome then 1 else 0)) ∧
    (∀ (resp : Except Unit (List NominatimItem)) (addr : String) (s2 : ServiceState),
      (geocode_with_nominatim resp addr s2).2.1.nominatim_success =
        s2.nominatim_success +
          (if (geocode_with_nominatim resp addr s2).1.isSome then 1 else 0)) ∧
    (batchCond ks use_batch addresses = true →
      (batch_geocode_addresses ks o times addresses mc use_batch s now).2.1.total_requests =
        s.total_requests ∧
      (batch_geocode_addresses ks o times addresses mc use_batch s now).2.1.failures =
        s.failures ∧
      (batch_geocode_addresses ks o times addresses mc use_batch s now).2.1.google_success =
        s.google_success ∧
      (batch_geocode_addresses ks o times addresses mc use_batch s now).2.1.opencage_success =
        s.opencage_success ∧
      (batch_geocode_addresses ks o times addresses mc use_batch s now).2.1.nominatim_success =
        s.nominatim_success) ∧
    counterMono s (geocode_address ks o times a mc s).2.1 ∧
    counterMono s (batch_geocode_addresses ks o times addresses mc use_batch s now).2.1 := by
  refine ⟨?_, ?_, ?_, ?_, ?_, ?_, ?_, ?_, ?_, ?_⟩
  · intro hblank
    simp [geocode_address, hblank]
  · intro hnb
    simp only [geocode_address, if_neg hnb, geocodio_fst, google_fst, opencage_fst,
      nominatim_fst]
    by_cases c1 : passes (geocodioResult ks.geocodio_api_key (o.geocodio (pyStrip a))
        (pyStrip a)) mc = true
    · simp only [c1, if_true]
      rw [(geocodio_counters _ _ _ _ _).1]
    · simp only [c1, if_false, Bool.false_eq_true]
      by_cases c2 : passes (googleResult ks.google_api_key (o.google (pyStrip a))
          (pyStrip a)) mc = true
      · simp only [c2, if_true]
        rw [(google_counters _ _ _ _ _).1, (geocodio_counters _ _ _ _ _).1]
      · simp only [c2, if_false, Bool.false_eq_true]
        by_cases c3 : passes (opencageResult ks.opencage_api_key (o.opencage (pyStrip a))
            (pyStrip a)) mc = true
        · simp only [c3, if_true]
          rw [(opencage_counters _ _ _ _ _).1, (google_counters _ _ _ _ _).1,
            (geocodio_counters _ _ _ _ _).1]
        · simp only [c3, if_false, Bool.false_eq_true]
          cases hn : nominatimResult (o.nominatim (pyStrip a)) (pyStrip a) with
          | some g =>
            simp only [hn]
            rw [(nominatim_counters _ _ _).1, (opencage_counters _ _ _ _ _).1,
              (google_counters _ _ _ _ _).1, (geocodio_counters _ _ _ _ _).1]
          | none =>
            simp only [hn]
            rw [show ∀ st : ServiceState,
                ({ st with failures := st.failures + 1 } : ServiceState).total_requests =
                  st.total_requests from fun _ => rfl]
            rw [(nominatim_counters _ _ _).1, (opencage_counters _ _ _ _ _).1,
              (google_counters _ _ _ _ _).1, (geocodio_counters _ _ _ _ _).1]
  · intro hnb
    simp only [geocode_address, if_neg hnb, geocodio_fst, google_fst, opencage_fst,
      nominatim_fst]
    by_cases c1 : passes (geocodioResult ks.geocodio_api_key (o.geocodio (pyStrip a))
        (pyStrip a)) mc = true
    · simp only [c1, if_true]
      rw [(geocodio_counters _ _ _ _ _).2]
      simp [passes_true_ne_none _ _ c1]
    · simp only [c1, if_false, Bool.false_eq_true]
      by_cases c2 : passes (googleResult ks.google_api_key (o.google (pyStrip a))
          (pyStrip a)) mc = true
      · simp only [c2, if_true]
        rw [(google_counters _ _ _ _ _).2, (geocodio_counters _ _ _ _ _).2]
        simp [passes_true_ne_none _ _ c2]
      · simp only [c2, if_false, Bool.false_eq_true]
        by_cases c3 : passes (opencageResult ks.opencage_api_key (o.opencage (pyStrip a))
            (pyStrip a)) mc = true
        · simp only [c3, if_true]
          rw [(opencage_counters _ _ _ _ _).2, (google_counters _ _ _ _ _).2,
            (geocodio_counters _ _ _ _ _).2]
          simp [passes_true_ne_none _ _ c3]
        · simp only [c3, if_false, Bool.false_eq_true]
          cases hn : nominatimResult (o.nominatim (pyStrip a)) (pyStrip a) with
          | some g =>
            simp only [hn]
            rw [(nominatim_counters _ _ _).2, (opencage_counters _ _ _ _ _).2,
              (google_counters _ _ _ _ _).2, (geocodio_counters _ _ _ _ _).2]
            simp
          | none =>
            simp only [hn]
            rw [(nominatim_counters _ _ _).2, (opencage_counters _ _ _ _ _).2,
              (google_counters _ _ _ _ _).2, (geocodio_counters _ _ _ _ _).2]
            simp
  · exact fun key resp addr s2 t => geocodio_success_eq key resp addr s2 t
  · exact fun key resp addr s2 t => google_success_eq key resp addr s2 t
  · exact fun key resp addr s2 t => opencage_success_eq key resp addr s2 t
  · exact fun resp addr s2 => nominatim_success_eq resp addr s2
  · intro hbc
    refine ⟨?_, ?_, ?_, ?_, ?_⟩
    · simp only [batch_geocode_addresses, hbc, if_true]
      rw [(batch_adapter_counters _ _ _ _ _).1]
    · simp only [batch_geocode_addresses, hbc, if_true]
      rw [(batch_adapter_counters _ _ _ _ _).2]
    · simp only [batch_geocode_addresses, hbc, if_true]
      rw [(batch_adapter_other _ _ _ _ _).1]
    · simp only [batch_geocode_addresses, hbc, if_true]
      rw [(batch_adapter_other _ _ _ _ _).2.1]
    · simp only [batch_geocode_addresses, hbc, if_true]
      rw [(batch_adapter_other _ _ _ _ _).2.2]
  · exact geocode_address_mono ks o times a mc s
  · by_cases hbc2 : batchCond ks use_batch addresses = true
    · simp only [batch_geocode_addresses, hbc2, if_true]
      exact batch_adapter_mono _ _ _ _ _
    · simp only [batch_geocode_addresses, hbc2, if_false, Bool.false_eq_true]
      exact runIndividual_mono ks o times mc addresses s

/-- Witness for C9 as amended: resolving the non-blank address "A" in per-address
mode increments the total-attempts counter from 0 to 1. -/
theorem C9_witness :
    (¬ pyStrip "A" = "") ∧
    ((geocode_address keysAll oracleFreeOnly times0 "A" (7/10) initState).2.1.total_requests =
      initState.total_requests + 1) :=
  ⟨by decide,
    (C9_amended keysAll oracleFreeOnly times0 "A" [] (7/10) false initState 0).2.1
      (by decide)⟩

theorem pythonTruthy_idem (x : Option String) (v : String)
    (h : pythonTruthy x = some v) : pythonTruthy (some v) = some v := by
  cases x with
  | none => exact absurd h (by simp [pythonTruthy])
  | some str =>
    by_cases hs : str = ""
    · simp [pythonTruthy, hs] at h
    · simp only [pythonTruthy, if_neg hs] at h
      cases h
      simp only [pythonTruthy, if_neg hs]

/-- Claim C10 (refuted for the primary provider): when `GEOCODIO_API_KEY` is
absent from the environment, the constructor silently substitutes a hardcoded
default credential, so the Geocodio adapter stays active and still produces
results — contradicting the claim that a missing credential always disables its
adapter and that no bundled default is ever substituted.  (The claim does hold
for the Google and OpenCage adapters; see the amended theorem.) -/
theorem C10_counterexample :
    ((serviceKeys envNone).geocodio_api_key = some default_geocodio_key) ∧
    ((geocode_with_geocodio (serviceKeys envNone).geocodio_api_key (.ok [itemHigh])
        "A" initState 0).1.isSome = true) := by
  constructor
  · rfl
  · simp +decide [geocode_with_geocodio, serviceKeys, envNone, pythonTruthy,
      default_geocodio_key, itemHigh, mkGeocodioResult]

/-- Claim C10 as amended: the Google and OpenCage adapters are individually
optional — with the credential absent from the environment (unset or blank), the
constructed service leaves them keyless and their resolver returns null without
consuming the network oracle, changing any state or sleeping; the service itself
always constructs.  The Geocodio adapter, however, is never disabled: the
constructor substitutes a bundled default key when the environment variable is
missing, so its key is always truthy. -/
theorem C10_amended (env : Env) (rgo : Except Unit GoogleResponse)
    (ro : Except Unit (List OpenCageItem)) (a : String) (s : ServiceState) (now : ℚ) :
    (pythonTruthy env.GOOGLE_MAPS_API_KEY = none →
      geocode_with_google (serviceKeys env).google_api_key rgo a s now = (none, s, 0)) ∧
    (pythonTruthy env.OPENCAGE_API_KEY = none →
      geocode_with_opencage (serviceKeys env).opencage_api_key ro a s now = (none, s, 0)) ∧
    ¬ pythonTruthy (serviceKeys env).geocodio_api_key = none := by
  refine ⟨?_, ?_, ?_⟩
  · intro hk
    simp only [geocode_with_google, serviceKeys, hk]
  · intro hk
    simp only [geocode_with_opencage, serviceKeys, hk]
  · cases hx : pythonTruthy env.GEOCODIO_API_KEY with
    | none =>
      simp only [serviceKeys, hx]
      decide
    | some v =>
      simp only [serviceKeys, hx]
      rw [pythonTruthy_idem _ _ hx]
      simp

/-- Witness for C10 as amended: with no environment credentials at all, the
Google adapter returns null untouched for any response. -/
theorem C10_witness :
    (pythonTruthy envNone.GOOGLE_MAPS_API_KEY = none) ∧
    (geocode_with_google (serviceKeys envNone).google_api_key (.error ()) "A"
      initState 0 = (none, initState, 0)) :=
  ⟨rfl, (C10_amended envNone (.error ()) (.error ()) "A" initState 0).1 rfl⟩

end PermitGeocoding
